/-
Verification of the Vimeo-to-text transcriber app (src/app.py).

The file embeds the app's pure logic in Lean:
  * `is_valid_vimeo_url`   — the URL validator (app.py, lines 30-34);
  * `get_audio_mime`       — the extension → MIME lookup (lines 37-52);
  * `format_video_info`    — the metadata formatter (lines 113-119);
  * `download_best_audio_from_vimeo` — the audio fetcher (lines 55-96),
    over an explicit environment for the external world (yt-dlp
    availability, extraction result, filesystem);
  * `submitAction` / `clearAction`   — the session-state transitions of
    `main` (lines 122-185), with the two external calls passed in as
    results (mocks) and a trace recording which calls were made.
-/
import Mathlib

/-! ### Python string primitives used by the app -/

/-- ASCII whitespace recognised by Python's `str.strip()` (space, tab,
newline, vertical tab, form feed, carriage return).  Python also strips
further Unicode whitespace; the app's inputs and the claims only involve
ASCII, which this models exactly. -/
def pyIsSpace (c : Char) : Bool :=
  c = ' ' || c = '\t' || c = '\n' || c = '\x0b' || c = '\x0c' || c = '\r'

/-- Python `str.strip()` on a character list: drop leading and trailing
whitespace. -/
def pyStrip (l : List Char) : List Char :=
  ((l.dropWhile pyIsSpace).reverse.dropWhile pyIsSpace).reverse

/-- If `s` starts with the literal characters `p`, return the remainder,
else `none`.  This is the primitive used to run the validator's regex. -/
def dropLit : List Char → List Char → Option (List Char)
  | [], s => some s
  | _ :: _, [] => none
  | p :: ps, c :: cs => if c = p then dropLit ps cs else none

/-- Skip an optional literal: consume `p` if present, else leave `s` as is.
Models an optional regex group `(lit)?`. -/
def skipOpt (p s : List Char) : List Char :=
  match dropLit p s with
  | some r => r
  | none => s

/-! ### URL validator (app.py lines 30-34)

```python
def is_valid_vimeo_url(url: str) -> bool:
    if not url:
        return False
    pattern = "(https?://)?(www\.)?vimeo\.com/[\w/]+"   # (raw string in the source)
    return re.match(pattern, url.strip()) is not None
```

`re.match` anchors at the start only: the pattern has to match a prefix of
the stripped string.  The three optional alternatives are prefix-disjoint
from what follows them (a string starting with `https://` or `http://`
cannot also start with `www.` or `vimeo.com/`, and one starting with
`www.` cannot start with `vimeo.com/`), so the greedy deterministic
matcher below accepts exactly the strings the regex matches.  `\w` is
modelled over ASCII (letter, digit or underscore), matching Python on all
ASCII input. -/

/-- A character matched by the regex class `\w` (ASCII model). -/
def isWordChar (c : Char) : Bool :=
  c.isAlphanum || c = '_'

/-- Match `vimeo\.com/[\w/]+` as a prefix of `s`. -/
def matchVimeoFrom (s : List Char) : Bool :=
  match dropLit "vimeo.com/".data s with
  | none => false
  | some rest =>
    match rest with
    | [] => false
    | c :: _ => isWordChar c || c = '/'

/-- Match the whole pattern `(https?://)?(www\.)?vimeo\.com/[\w/]+` as a
prefix of `s`.  `https?://` is resolved greedily: try `https://`, then
`http://`, then nothing (a string starting with one cannot start with
the other, so the order is immaterial). -/
def matchVimeo (s : List Char) : Bool :=
  let s1 := match dropLit "https://".data s with
            | some r => r
            | none => skipOpt "http://".data s
  matchVimeoFrom (skipOpt "www.".data s1)

/-- The URL validator.  Python's `not url` is true exactly for the empty
string (a missing/None input also yields `False` in the source). -/
def is_valid_vimeo_url (url : String) : Bool :=
  if url = "" then false else matchVimeo (pyStrip url.data)

/-- The hosting-domain pattern, stated from the spec's words: after
trimming whitespace, the string begins with an optional scheme, an
optional `www.`, the literal `vimeo.com/` and at least one
word-or-slash character (arbitrary characters may follow). -/
def VimeoPattern (url : String) : Prop :=
  ∃ scheme www : String, ∃ c : Char, ∃ tail : List Char,
    (scheme = "" ∨ scheme = "http://" ∨ scheme = "https://") ∧
    (www = "" ∨ www = "www.") ∧
    pyStrip url.data = scheme.data ++ (www.data ++ ("vimeo.com/".data ++ c :: tail)) ∧
    (isWordChar c || c = '/') = true

/-! ### MIME lookup (app.py lines 37-52) -/

/-- The extension → MIME association list, in source order. -/
def audioMimeMapping : List (String × String) :=
  [("mp3", "audio/mpeg"), ("m4a", "audio/mp4"), ("mp4", "audio/mp4"),
   ("aac", "audio/aac"), ("wav", "audio/wav"), ("webm", "audio/webm"),
   ("ogg", "audio/ogg"), ("oga", "audio/ogg"), ("flac", "audio/flac"),
   ("mka", "audio/x-matroska"), ("opus", "audio/opus")]

/-- Python `ext.lower().lstrip(".")`: lowercase each character (ASCII
model, matching Python on all ASCII input), then remove all leading
dots. -/
def normalizeExt (ext : String) : String :=
  ⟨(ext.data.map Char.toLower).dropWhile (fun c => c = '.')⟩

/-- `get_audio_mime`: normalize the extension, look it up, default to
`audio/mpeg`. -/
def get_audio_mime (ext : String) : String :=
  ((audioMimeMapping.lookup (normalizeExt ext)).getD "audio/mpeg")

/-! ### Metadata and formatting (app.py lines 113-119)

The info dict returned by yt-dlp is modelled by the fields the app
reads: `id` and `ext` (used by the output template), `title`,
`uploader`, `duration` (read by `format_video_info` via `.get`, so each
may be absent), and `requested_downloads` (the fallback file-location
list; `info.get(...) or []` maps an absent/None/empty value to `[]`, so
it is modelled directly as a list). -/

/-- An entry of `requested_downloads`; the app reads only its
`_filename` key, which may be absent. -/
structure ReqEntry where
  filename : Option String
deriving DecidableEq

/-- The yt-dlp info dict, restricted to the keys the app reads. -/
structure InfoDict where
  id : String
  ext : String
  title : Option String
  uploader : Option String
  duration : Option Nat
  requested_downloads : List ReqEntry
deriving DecidableEq

/-- Python `info.get("title") or "Untitled"`: the fallback fires on a
missing key and on a falsy (empty) string. -/
def displayTitle (info : InfoDict) : String :=
  match info.title with
  | none => "Untitled"
  | some t => if t = "" then "Untitled" else t

/-- Python `info.get("uploader") or "Unknown uploader"`. -/
def displayUploader (info : InfoDict) : String :=
  match info.uploader with
  | none => "Unknown uploader"
  | some u => if u = "" then "Unknown uploader" else u

/-- Python `info.get("duration") or 0` (`0 or 0` is `0`, so `getD`
agrees on every value). -/
def durationVal (info : InfoDict) : Nat :=
  (info.duration).getD 0

/-- `format_video_info`: the f-string `"Title: {title}\nUploader: {uploader}\nDuration: {minutes}m {seconds}s"`
with `minutes = duration // 60` and `seconds = duration % 60`. -/
def format_video_info (info : InfoDict) : String :=
  "Title: " ++ displayTitle info ++ "\nUploader: " ++ displayUploader info ++
    "\nDuration: " ++ toString (durationVal info / 60) ++ "m " ++
    toString (durationVal info % 60) ++ "s"

/-! ### Audio fetcher (app.py lines 17-27 and 55-96)

The external world is an explicit environment: whether `import yt_dlp`
succeeds, whether the on-demand `pip install` (followed by the retried
import) succeeds, the result of `ydl.extract_info` for the given URL,
the temporary directory's name, and the filesystem after the download
(a map from path to contents). -/

/-- Environment of the download operation. -/
structure DownloadEnv where
  ytDlpImportable : Bool
  pipInstallSucceeds : Bool
  extractInfo : Option InfoDict
  tmpdir : String
  fs : String → Option (List Nat)

/-- `ensure_yt_dlp_installed`: true if the import succeeds, else true
iff the `pip install` plus retried import succeeds. -/
def ensure_yt_dlp_installed (env : DownloadEnv) : Bool :=
  if env.ytDlpImportable then true else env.pipInstallSucceeds

/-- `ydl.prepare_filename(info)` with the app's output template
`os.path.join(tmpdir, "%(id)s.%(ext)s")`. -/
def prepareFilename (env : DownloadEnv) (info : InfoDict) : String :=
  env.tmpdir ++ "/" ++ info.id ++ "." ++ info.ext

/-- `os.path.splitext(path)[1].lstrip(".")` (CPython `_splitext`): the
extension is the part of the basename after its last dot, provided some
non-dot character precedes that dot within the basename; the single
leading dot is then stripped. -/
def pyExtNoDot (path : String) : String :=
  let base := ((path.data.reverse.takeWhile (fun c => c ≠ '/')).reverse)
  if base.contains '.' then
    let afterDot := (base.reverse.takeWhile (fun c => c ≠ '.')).reverse
    let beforeDot := ((base.reverse.dropWhile (fun c => c ≠ '.')).drop 1).reverse
    if beforeDot.any (fun c => c ≠ '.') then ⟨afterDot⟩ else ""
  else ""

/-- The path the code reads from: `prepare_filename` if it exists on
disk, else the first `requested_downloads` entry's `_filename` (with
`prepare_filename` as the `.get` default), else `prepare_filename`. -/
def resolvedPath (env : DownloadEnv) (info : InfoDict) : String :=
  let p0 := prepareFilename env info
  if (env.fs p0).isSome then p0
  else
    match info.requested_downloads with
    | [] => p0
    | e :: _ => e.filename.getD p0

/-- `download_best_audio_from_vimeo`: raises (`Except.error`) on the
three failure conditions, otherwise returns
`(audio_bytes, file_extension, info_dict)`.  The URL parameter is kept
for shape; `env.extractInfo` is the extraction result for that URL. -/
def download_best_audio_from_vimeo (env : DownloadEnv) (_url : String) :
    Except String (List Nat × String × InfoDict) :=
  if ensure_yt_dlp_installed env = false then
    .error "Failed to install yt-dlp. Please install it manually: pip install yt-dlp"
  else
    match env.extractInfo with
    | none => .error "Failed to extract info from Vimeo URL."
    | some info =>
      match env.fs (resolvedPath env info) with
      | none => .error "Downloaded audio file not found."
      | some bytes => .ok (bytes, pyExtNoDot (resolvedPath env info), info)

/-! ### Presentation layer: session state and actions (app.py lines 122-185)

The Streamlit session state is modelled by the four keys this app uses;
an absent key is `none`.  The two external calls of the submit flow
(download, transcription) are passed in as results, and a trace records
which calls were made and which error (if any) was reported. -/

/-- The session state: the four keys `main` reads and writes. -/
structure SessionState where
  transcript_text : Option String
  audio_bytes : Option (List Nat)
  audio_ext : Option String
  video_info : Option InfoDict
deriving DecidableEq

/-- The empty (idle) session state: no key present. -/
def emptySession : SessionState :=
  ⟨none, none, none, none⟩

/-- Which stage reported the error of a submit action. -/
inductive StageError where
  | validation
  | fetch (msg : String)
  | transcription (msg : String)
deriving DecidableEq

/-- Observable trace of one submit action: which external calls ran and
which error was shown (`none` on success). -/
structure SubmitTrace where
  fetchCalled : Bool
  transcribeCalled : Bool
  error : Option StageError
deriving DecidableEq

/-- The clear action (lines 137-141): delete each of the four keys that
is present.  The result always has no key present. -/
def clearAction (_s : SessionState) : SessionState :=
  emptySession

/-- The submit (Transcribe) action (lines 143-165).  Invalid URL: error,
`st.stop()`, nothing called, state unchanged.  Fetch failure: error,
`st.stop()`, state unchanged.  Fetch success: the three audio keys are
stored, then transcription runs; its failure leaves the stored audio and
the prior transcript value, its success stores the transcript. -/
def submitAction (url : String)
    (fetchResult : Except String (List Nat × String × InfoDict))
    (transResult : Except String String)
    (s : SessionState) : SessionState × SubmitTrace :=
  if is_valid_vimeo_url url = false then
    (s, ⟨false, false, some .validation⟩)
  else
    match fetchResult with
    | .error e => (s, ⟨true, false, some (.fetch e)⟩)
    | .ok (bytes, ext, info) =>
      let s1 : SessionState :=
        { s with audio_bytes := some bytes, audio_ext := some ext,
                 video_info := some info }
      match transResult with
      | .error e => (s1, ⟨true, true, some (.transcription e)⟩)
      | .ok text =>
        ({ s1 with transcript_text := some text }, ⟨true, true, none⟩)

/-! ### Claim C2: the MIME lookup -/

/-- C2: for every extension key present in the MIME mapping,
`get_audio_mime` returns the mapped value; for every extension whose
normalized form is not a key of the mapping, it returns the default
`"audio/mpeg"`. -/
theorem get_audio_mime_spec :
    (∀ p ∈ audioMimeMapping, get_audio_mime p.1 = p.2) ∧
    (∀ ext : String, audioMimeMapping.lookup (normalizeExt ext) = none →
      get_audio_mime ext = "audio/mpeg") := by
  constructor
  · decide
  · intro ext h
    simp [get_audio_mime, h]

/-- Witness for C2: the theorem applied to the key `"mp3"` and to the
unmapped extension `"xyz"`. -/
theorem get_audio_mime_spec_witness :
    get_audio_mime "mp3" = "audio/mpeg" ∧ get_audio_mime "xyz" = "audio/mpeg" :=
  ⟨get_audio_mime_spec.1 ("mp3", "audio/mpeg") (by decide),
   get_audio_mime_spec.2 "xyz" (by decide)⟩

/-! ### Claims C3 and C4: the metadata formatter -/

/-- C3: a metadata mapping with duration 125 formats its duration as
`2m 5s`; duration 0 or an absent duration formats as `0m 0s`; in
general duration `d` formats as `(d / 60)m (d % 60)s`. -/
theorem format_video_info_duration :
    (∀ info : InfoDict, info.duration = some 125 →
      format_video_info info = "Title: " ++ displayTitle info ++ "\nUploader: " ++
        displayUploader info ++ "\nDuration: 2m 5s") ∧
    (∀ info : InfoDict, info.duration = some 0 ∨ info.duration = none →
      format_video_info info = "Title: " ++ displayTitle info ++ "\nUploader: " ++
        displayUploader info ++ "\nDuration: 0m 0s") ∧
    (∀ info : InfoDict, ∀ d : Nat, info.duration = some d →
      format_video_info info = "Title: " ++ displayTitle info ++ "\nUploader: " ++
        displayUploader info ++ "\nDuration: " ++ toString (d / 60) ++ "m " ++
        toString (d % 60) ++ "s") := by
  refine ⟨?_, ?_, ?_⟩
  · intro info h
    simp only [format_video_info, durationVal, h, Option.getD_some, String.append_assoc]
    rfl
  · intro info h
    rcases h with h | h <;>
    · simp only [format_video_info, durationVal, h, Option.getD_some, Option.getD_none,
        String.append_assoc]
      rfl
  · intro info d h
    simp [format_video_info, durationVal, h]

/-- Witness for C3: the theorem applied to concrete metadata with
durations 125, 0, absent, and 61. -/
theorem format_video_info_duration_witness :
    format_video_info ⟨"i", "m4a", some "T", some "U", some 125, []⟩ =
      "Title: T\nUploader: U\nDuration: 2m 5s" ∧
    format_video_info ⟨"i", "m4a", some "T", some "U", some 0, []⟩ =
      "Title: T\nUploader: U\nDuration: 0m 0s" ∧
    format_video_info ⟨"i", "m4a", some "T", some "U", none, []⟩ =
      "Title: T\nUploader: U\nDuration: 0m 0s" ∧
    format_video_info ⟨"i", "m4a", some "T", some "U", some 61, []⟩ =
      "Title: T\nUploader: U\nDuration: " ++ toString (61 / 60) ++ "m " ++
        toString (61 % 60) ++ "s" :=
  ⟨format_video_info_duration.1 _ rfl,
   format_video_info_duration.2.1 _ (Or.inl rfl),
   format_video_info_duration.2.1 _ (Or.inr rfl),
   format_video_info_duration.2.2 _ 61 rfl⟩

/-- C4: a metadata mapping with no title renders the title as
`Untitled`; one with no uploader renders the uploader as
`Unknown uploader`. -/
theorem format_video_info_fallbacks :
    (∀ info : InfoDict, info.title = none →
      format_video_info info = "Title: Untitled\nUploader: " ++ displayUploader info ++
        "\nDuration: " ++ toString (durationVal info / 60) ++ "m " ++
        toString (durationVal info % 60) ++ "s") ∧
    (∀ info : InfoDict, info.uploader = none →
      format_video_info info = "Title: " ++ displayTitle info ++
        "\nUploader: Unknown uploader\nDuration: " ++ toString (durationVal info / 60) ++
        "m " ++ toString (durationVal info % 60) ++ "s") := by
  constructor
  · intro info h
    simp only [format_video_info, displayTitle, h, String.append_assoc]
    rfl
  · intro info h
    simp only [format_video_info, displayUploader, h, String.append_assoc]
    rfl

/-- Witness for C4: the theorem applied to metadata with a missing
title and to metadata with a missing uploader. -/
theorem format_video_info_fallbacks_witness :
    format_video_info ⟨"i", "m4a", none, some "U", some 5, []⟩ =
      "Title: Untitled\nUploader: U\nDuration: 0m 5s" ∧
    format_video_info ⟨"i", "m4a", some "T", none, some 5, []⟩ =
      "Title: T\nUploader: Unknown uploader\nDuration: 0m 5s" := by
  constructor
  · have h := format_video_info_fallbacks.1 ⟨"i", "m4a", none, some "U", some 5, []⟩ rfl
    simpa using h
  · have h := format_video_info_fallbacks.2 ⟨"i", "m4a", some "T", none, some 5, []⟩ rfl
    simpa using h

/-! ### Claims C5, C6, C7, C8: the submit and clear actions -/

/-- C5: a submit with a URL that fails validation calls neither the
fetcher nor the transcriber, leaves the session state unchanged, and
reports only a validation error. -/
theorem submitAction_invalid_url (url : String)
    (fetchResult : Except String (List Nat × String × InfoDict))
    (transResult : Except String String) (s : SessionState)
    (h : is_valid_vimeo_url url = false) :
    submitAction url fetchResult transResult s =
      (s, ⟨false, false, some .validation⟩) := by
  simp [submitAction, h]

/-- Witness for C5: the theorem applied to the invalid URL `"notaurl"`. -/
theorem submitAction_invalid_url_witness :
    submitAction "notaurl" (.ok ([1], "m4a", ⟨"i", "m4a", none, none, none, []⟩))
      (.ok "hello") ⟨some "old", none, none, none⟩ =
      (⟨some "old", none, none, none⟩, ⟨false, false, some .validation⟩) :=
  submitAction_invalid_url "notaurl" _ _ _ (by decide)

/-- C6: a submit with a valid URL whose fetch fails stores nothing (no
audio bytes, extension, metadata or transcript) and leaves the prior
session state untouched; the fetch ran, the transcriber did not. -/
theorem submitAction_fetch_error (url msg : String)
    (transResult : Except String String) (s : SessionState)
    (hvalid : is_valid_vimeo_url url = true) :
    submitAction url (.error msg) transResult s =
      (s, ⟨true, false, some (.fetch msg)⟩) := by
  simp [submitAction, hvalid]

/-- Witness for C6: the theorem applied to a valid URL with a failing
fetch, starting from a non-empty prior state. -/
theorem submitAction_fetch_error_witness :
    submitAction "https://vimeo.com/123" (.error "boom") (.ok "hello")
      ⟨some "old", some [9], some "mp3", none⟩ =
      (⟨some "old", some [9], some "mp3", none⟩, ⟨true, false, some (.fetch "boom")⟩) :=
  submitAction_fetch_error "https://vimeo.com/123" "boom" _ _ (by decide)

/-- C7: a submit whose fetch succeeds and whose transcription fails
keeps the fetched audio bytes, extension and metadata in the session
state, and does not set the transcript key (it keeps its prior value,
so it stays absent when it was absent). -/
theorem submitAction_transcription_error (url msg : String) (bytes : List Nat)
    (ext : String) (info : InfoDict) (s : SessionState)
    (hvalid : is_valid_vimeo_url url = true) :
    submitAction url (.ok (bytes, ext, info)) (.error msg) s =
      ({ s with audio_bytes := some bytes, audio_ext := some ext,
                video_info := some info },
       ⟨true, true, some (.transcription msg)⟩) ∧
    (submitAction url (.ok (bytes, ext, info)) (.error msg) s).1.transcript_text =
      s.transcript_text := by
  constructor
  · simp [submitAction, hvalid]
  · simp [submitAction, hvalid]

/-- Witness for C7: the theorem applied to a valid URL, a successful
fetch and a failing transcription, from the empty prior state: the
audio artifacts are stored and the transcript stays absent. -/
theorem submitAction_transcription_error_witness :
    submitAction "https://vimeo.com/123" (.ok ([1, 2], "m4a", ⟨"i", "m4a", none, none, none, []⟩))
      (.error "api down") emptySession =
      (⟨none, some [1, 2], some "m4a", some ⟨"i", "m4a", none, none, none, []⟩⟩,
       ⟨true, true, some (.transcription "api down")⟩) ∧
    (submitAction "https://vimeo.com/123" (.ok ([1, 2], "m4a", ⟨"i", "m4a", none, none, none, []⟩))
      (.error "api down") emptySession).1.transcript_text = none :=
  ⟨(submitAction_transcription_error "https://vimeo.com/123" "api down" [1, 2] "m4a"
      ⟨"i", "m4a", none, none, none, []⟩ emptySession (by decide)).1,
   (submitAction_transcription_error "https://vimeo.com/123" "api down" [1, 2] "m4a"
      ⟨"i", "m4a", none, none, none, []⟩ emptySession (by decide)).2⟩

/-- C8: the clear action removes all four session keys from every prior
state, returning the session to its empty idle form. -/
theorem clearAction_clears_all (s : SessionState) :
    (clearAction s).transcript_text = none ∧ (clearAction s).audio_bytes = none ∧
    (clearAction s).audio_ext = none ∧ (clearAction s).video_info = none ∧
    clearAction s = emptySession :=
  ⟨rfl, rfl, rfl, rfl, rfl⟩

/-! ### Claim C9: the audio fetcher's failure conditions -/

/-- C9: `download_best_audio_from_vimeo` fails exactly when the
downloader is unavailable and uninstallable, or the extraction returns
no data, or the expected output file is missing after the download;
each failure carries its descriptive message, and otherwise the
function returns the triple (audio bytes, extension, metadata). -/
theorem download_best_audio_spec (env : DownloadEnv) (url : String) :
    (ensure_yt_dlp_installed env = false →
      download_best_audio_from_vimeo env url =
        .error "Failed to install yt-dlp. Please install it manually: pip install yt-dlp") ∧
    (ensure_yt_dlp_installed env = true → env.extractInfo = none →
      download_best_audio_from_vimeo env url =
        .error "Failed to extract info from Vimeo URL.") ∧
    (∀ info : InfoDict, ensure_yt_dlp_installed env = true →
      env.extractInfo = some info → env.fs (resolvedPath env info) = none →
      download_best_audio_from_vimeo env url = .error "Downloaded audio file not found.") ∧
    (∀ info : InfoDict, ∀ bytes : List Nat, ensure_yt_dlp_installed env = true →
      env.extractInfo = some info → env.fs (resolvedPath env info) = some bytes →
      download_best_audio_from_vimeo env url =
        .ok (bytes, pyExtNoDot (resolvedPath env info), info)) ∧
    ((∃ e, download_best_audio_from_vimeo env url = .error e) ↔
      (ensure_yt_dlp_installed env = false ∨ env.extractInfo = none ∨
       ∃ info, env.extractInfo = some info ∧ env.fs (resolvedPath env info) = none)) := by
  refine ⟨?_, ?_, ?_, ?_, ?_⟩
  · intro h; simp [download_best_audio_from_vimeo, h]
  · intro h h2; simp [download_best_audio_from_vimeo, h, h2]
  · intro info h h2 h3; simp [download_best_audio_from_vimeo, h, h2, h3]
  · intro info bytes h h2 h3; simp [download_best_audio_from_vimeo, h, h2, h3]
  · constructor
    · rintro ⟨e, he⟩
      by_cases h : ensure_yt_dlp_installed env = false
      · exact Or.inl h
      · simp only [Bool.not_eq_false] at h
        cases h2 : env.extractInfo with
        | none => exact Or.inr (Or.inl rfl)
        | some info =>
          refine Or.inr (Or.inr ⟨info, rfl, ?_⟩)
          cases h3 : env.fs (resolvedPath env info) with
          | none => rfl
          | some bytes =>
            simp [download_best_audio_from_vimeo, h, h2, h3] at he
    · rintro (h | h | ⟨info, h1, h2⟩)
      · exact ⟨"Failed to install yt-dlp. Please install it manually: pip install yt-dlp",
          by simp [download_best_audio_from_vimeo, h]⟩
      · by_cases hh : ensure_yt_dlp_installed env = false
        · exact ⟨"Failed to install yt-dlp. Please install it manually: pip install yt-dlp",
            by simp [download_best_audio_from_vimeo, hh]⟩
        · simp only [Bool.not_eq_false] at hh
          exact ⟨"Failed to extract info from Vimeo URL.",
            by simp [download_best_audio_from_vimeo, hh, h]⟩
      · by_cases hh : ensure_yt_dlp_installed env = false
        · exact ⟨"Failed to install yt-dlp. Please install it manually: pip install yt-dlp",
            by simp [download_best_audio_from_vimeo, hh]⟩
        · simp only [Bool.not_eq_false] at hh
          exact ⟨"Downloaded audio file not found.",
            by simp [download_best_audio_from_vimeo, hh, h1, h2]⟩

/-- Witness for C9: the theorem applied to a concrete environment with
a successful download, and to one with no downloader available. -/
theorem download_best_audio_spec_witness :
    download_best_audio_from_vimeo
      ⟨true, false, some ⟨"vid1", "m4a", some "T", some "U", some 65, []⟩, "/tmp/d",
        fun p => if p = "/tmp/d/vid1.m4a" then some [7, 8] else none⟩ "https://vimeo.com/1" =
      .ok ([7, 8], "m4a", ⟨"vid1", "m4a", some "T", some "U", some 65, []⟩) ∧
    download_best_audio_from_vimeo ⟨false, false, none, "/t", fun _ => none⟩ "u" =
      .error "Failed to install yt-dlp. Please install it manually: pip install yt-dlp" := by
  constructor
  · have h := (download_best_audio_spec
      ⟨true, false, some ⟨"vid1", "m4a", some "T", some "U", some 65, []⟩, "/tmp/d",
        fun p => if p = "/tmp/d/vid1.m4a" then some [7, 8] else none⟩
      "https://vimeo.com/1").2.2.2.1 ⟨"vid1", "m4a", some "T", some "U", some 65, []⟩
      [7, 8] rfl rfl (by decide)
    have hext : pyExtNoDot (resolvedPath
      ⟨true, false, some ⟨"vid1", "m4a", some "T", some "U", some 65, []⟩, "/tmp/d",
        fun p => if p = "/tmp/d/vid1.m4a" then some [7, 8] else none⟩
      ⟨"vid1", "m4a", some "T", some "U", some 65, []⟩) = "m4a" := by decide
    rw [h, hext]
  · exact (download_best_audio_spec ⟨false, false, none, "/t", fun _ => none⟩ "u").1 rfl

/-! ### Helper lemmas for the validator (claims C1 and C10) -/

/-- Soundness of `dropLit`: a successful match decomposes the input. -/
theorem dropLit_sound (p : List Char) : ∀ s r : List Char, dropLit p s = some r → s = p ++ r := by
  induction p with
  | nil =>
    intro s r h
    simp only [dropLit, Option.some.injEq] at h
    simp [h]
  | cons a ps ih =>
    intro s r h
    cases s with
    | nil => simp [dropLit] at h
    | cons c cs =>
      simp only [dropLit] at h
      split at h
      · next hc => rw [List.cons_append, ← ih cs r h, hc]
      · exact absurd h (by simp)

/-- Completeness of `dropLit` on an explicit decomposition. -/
theorem dropLit_pre (p r : List Char) : dropLit p (p ++ r) = some r := by
  induction p with
  | nil => rfl
  | cons a ps ih => simp [dropLit, ih]

/-- `dropLit` fails when the first characters differ. -/
theorem dropLit_ne_head (a c : Char) (ps cs : List Char) (h : ¬ c = a) :
    dropLit (a :: ps) (c :: cs) = none := by
  simp [dropLit, h]

/-- `skipOpt` leaves the input unchanged or consumes exactly `p`. -/
theorem skipOpt_cases (p s : List Char) : skipOpt p s = s ∨ s = p ++ skipOpt p s := by
  unfold skipOpt
  cases hd : dropLit p s with
  | none => exact Or.inl rfl
  | some r => exact Or.inr (dropLit_sound p s r hd)

/-- A successful `matchVimeoFrom` decomposes its input. -/
theorem matchVimeoFrom_sound (s : List Char) (h : matchVimeoFrom s = true) :
    ∃ c tail, s = "vimeo.com/".data ++ c :: tail ∧ (isWordChar c || c = '/') = true := by
  unfold matchVimeoFrom at h
  cases hd : dropLit "vimeo.com/".data s with
  | none => rw [hd] at h; exact absurd h (by simp)
  | some rest =>
    rw [hd] at h
    cases rest with
    | nil => exact absurd h (by simp)
    | cons c tl => exact ⟨c, tl, dropLit_sound _ _ _ hd, h⟩

/-- After the optional `www.`, a successful match decomposes the input. -/
theorem afterWww_sound (s1 : List Char)
    (h : matchVimeoFrom (skipOpt "www.".data s1) = true) :
    ∃ www : String, ∃ c : Char, ∃ tail : List Char, (www = "" ∨ www = "www.") ∧
      s1 = www.data ++ ("vimeo.com/".data ++ c :: tail) ∧
      (isWordChar c || c = '/') = true := by
  obtain ⟨c, tl, heq, hc⟩ := matchVimeoFrom_sound _ h
  rcases skipOpt_cases "www.".data s1 with h1 | h1
  · exact ⟨"", c, tl, Or.inl rfl, h1.symm.trans heq, hc⟩
  · exact ⟨"www.", c, tl, Or.inr rfl, h1.trans (by rw [heq]), hc⟩

/-- A successful `matchVimeo` decomposes its input into the pattern's
pieces. -/
theorem matchVimeo_sound (t : List Char) (h : matchVimeo t = true) :
    ∃ scheme www : String, ∃ c : Char, ∃ tail : List Char,
      (scheme = "" ∨ scheme = "http://" ∨ scheme = "https://") ∧
      (www = "" ∨ www = "www.") ∧
      t = scheme.data ++ (www.data ++ ("vimeo.com/".data ++ c :: tail)) ∧
      (isWordChar c || c = '/') = true := by
  have h' : matchVimeoFrom (skipOpt "www.".data
      (match dropLit "https://".data t with
       | some r => r
       | none => skipOpt "http://".data t)) = true := h
  cases hd : dropLit "https://".data t with
  | some r =>
    simp only [hd] at h'
    obtain ⟨www, c, tl, hw, heq, hc⟩ := afterWww_sound r h'
    exact ⟨"https://", www, c, tl, Or.inr (Or.inr rfl), hw,
      by rw [dropLit_sound _ _ _ hd, heq], hc⟩
  | none =>
    simp only [hd] at h'
    rcases skipOpt_cases "http://".data t with h1 | h1
    · obtain ⟨www, c, tl, hw, heq, hc⟩ := afterWww_sound _ h'
      exact ⟨"", www, c, tl, Or.inl rfl, hw, h1.symm.trans heq, hc⟩
    · obtain ⟨www, c, tl, hw, heq, hc⟩ := afterWww_sound _ h'
      exact ⟨"http://", www, c, tl, Or.inr (Or.inl rfl), hw, h1.trans (by rw [heq]), hc⟩

/-- The validator only accepts strings matching the pattern. -/
theorem is_valid_implies_pattern (url : String) (h : is_valid_vimeo_url url = true) :
    VimeoPattern url := by
  unfold is_valid_vimeo_url at h
  split at h
  · exact absurd h (by simp)
  · exact matchVimeo_sound _ h

/-- `dropWhile` is the identity when no element satisfies the predicate. -/
theorem dropWhile_eq_self_of (p : Char → Bool) (l : List Char)
    (h : ∀ c ∈ l, p c = false) : l.dropWhile p = l := by
  cases l with
  | nil => rfl
  | cons a as => simp [List.dropWhile_cons, h a (List.mem_cons_self a as)]

/-- `pyStrip` is the identity on whitespace-free input. -/
theorem pyStrip_eq_self (l : List Char) (h : ∀ c ∈ l, pyIsSpace c = false) :
    pyStrip l = l := by
  unfold pyStrip
  rw [dropWhile_eq_self_of _ _ h, dropWhile_eq_self_of, List.reverse_reverse]
  intro c hc
  exact h c (List.mem_reverse.mp hc)

/-- `dropWhile` cannot pass an element that falsifies the predicate. -/
theorem dropWhile_append_stops (p : Char → Bool) (xs : List Char) (a : Char)
    (as : List Char) (ha : p a = false) :
    ∃ t, List.dropWhile p (xs ++ a :: as) = t ++ a :: as := by
  induction xs with
  | nil => exact ⟨[], by simp [List.dropWhile_cons, ha]⟩
  | cons x xs ih =>
    cases hx : p x with
    | true =>
      obtain ⟨t, ht⟩ := ih
      exact ⟨t, by simp [List.dropWhile_cons, hx, ht]⟩
    | false => exact ⟨x :: xs, by simp [List.dropWhile_cons, hx]⟩

/-- A digit is not whitespace. -/
theorem digit_not_space (c : Char) (h : c.isDigit = true) : pyIsSpace c = false := by
  by_contra hs
  simp only [Bool.not_eq_false, pyIsSpace, Bool.or_eq_true, decide_eq_true_eq] at hs
  rcases hs with ((((rfl | rfl) | rfl) | rfl) | rfl) | rfl <;> exact absurd h (by decide)

/-- A digit is a word character. -/
theorem digit_wordChar (c : Char) (h : c.isDigit = true) : isWordChar c = true := by
  simp [isWordChar, Char.isAlphanum, h]

/-- The matcher accepts `https://vimeo.com/` followed by a word-or-slash
character and anything at all after it. -/
theorem matchVimeo_standard (r : List Char) (c : Char) (tl : List Char)
    (hr : r = c :: tl) (hc : (isWordChar c || c = '/') = true) :
    matchVimeo ("https://vimeo.com/".data ++ r) = true := by
  have h1 : dropLit "https://".data ("https://vimeo.com/".data ++ r) =
      some ("vimeo.com/".data ++ r) := by
    rw [show "https://vimeo.com/".data = "https://".data ++ "vimeo.com/".data from rfl,
      List.append_assoc]
    exact dropLit_pre _ _
  have h2 : dropLit "www.".data ("vimeo.com/".data ++ r) = none := by
    rw [show "vimeo.com/".data ++ r = 'v' :: ("imeo.com/".data ++ r) from rfl]
    exact dropLit_ne_head _ _ _ _ (by decide)
  have h3 : dropLit "vimeo.com/".data ("vimeo.com/".data ++ r) = some r := dropLit_pre _ _
  show matchVimeoFrom (skipOpt "www.".data
    (match dropLit "https://".data ("https://vimeo.com/".data ++ r) with
     | some x => x
     | none => skipOpt "http://".data ("https://vimeo.com/".data ++ r))) = true
  rw [h1]
  show matchVimeoFrom (skipOpt "www.".data ("vimeo.com/".data ++ r)) = true
  unfold skipOpt
  rw [h2]
  show matchVimeoFrom ("vimeo.com/".data ++ r) = true
  unfold matchVimeoFrom
  rw [h3, hr]
  exact hc

/-! ### Claim C1: the URL validator -/

/-- C1: every string that does not match the hosting-domain pattern is
rejected — in particular the empty string (the source also returns
False for a missing/None input) — and every string of the form
`https://vimeo.com/<digits>` is accepted, with surrounding whitespace
trimmed before matching. -/
theorem is_valid_vimeo_url_spec :
    (∀ url : String, ¬ VimeoPattern url → is_valid_vimeo_url url = false) ∧
    is_valid_vimeo_url "" = false ∧
    (∀ ds : String, ds ≠ "" → (∀ c ∈ ds.data, c.isDigit = true) →
      is_valid_vimeo_url ("https://vimeo.com/" ++ ds) = true) ∧
    is_valid_vimeo_url "  https://vimeo.com/123  " = true := by
  refine ⟨?_, by decide, ?_, by decide⟩
  · intro url hnp
    cases hv : is_valid_vimeo_url url with
    | false => rfl
    | true => exact absurd (is_valid_implies_pattern url hv) hnp
  · intro ds hne hdig
    unfold is_valid_vimeo_url
    rw [if_neg ?empty]
    case empty =>
      intro h0
      have h0' : "https://vimeo.com/".data ++ ds.data = [] := by
        rw [← String.data_append]
        rw [h0]
      exact absurd (List.append_eq_nil.mp h0').1 (by decide)
    have hpre : ∀ x ∈ "https://vimeo.com/".data, pyIsSpace x = false := by decide
    rw [String.data_append, pyStrip_eq_self]
    · cases hds : ds.data with
      | nil => exact absurd (String.ext hds) hne
      | cons c tl =>
        refine matchVimeo_standard (c :: tl) c tl rfl ?_
        have hc : c.isDigit = true := hdig c (by rw [hds]; exact List.mem_cons_self c tl)
        simp [digit_wordChar c hc]
    · intro c hc
      rcases List.mem_append.mp hc with hc | hc
      · exact hpre c hc
      · exact digit_not_space c (hdig c hc)

/-- Witness for C1: the theorem applied to the empty string (no
decomposition of the pattern exists for it) and to the digits string
`42`. -/
theorem is_valid_vimeo_url_spec_witness :
    is_valid_vimeo_url "" = false ∧ is_valid_vimeo_url "https://vimeo.com/42" = true := by
  constructor
  · apply is_valid_vimeo_url_spec.1
    rintro ⟨scheme, www, c, tail, -, -, heq, -⟩
    have h0 : pyStrip ("" : String).data = [] := rfl
    rw [h0] at heq
    rcases List.append_eq_nil.mp heq.symm with ⟨-, h2⟩
    rcases List.append_eq_nil.mp h2 with ⟨-, h3⟩
    rcases List.append_eq_nil.mp h3 with ⟨-, h4⟩
    exact List.cons_ne_nil _ _ h4
  · exact is_valid_vimeo_url_spec.2.2.1 "42" (by decide) (by decide)

/-- Completeness of the matcher: every decomposition into the pattern's
pieces (any allowed scheme, optional `www.`, the domain, one
word-or-slash character, anything after) is accepted.  Each of the six
scheme/`www.` combinations reduces by computation on the concrete
prefix. -/
theorem matchVimeo_complete (scheme www : String) (c : Char) (tl : List Char)
    (hs : scheme = "" ∨ scheme = "http://" ∨ scheme = "https://")
    (hw : www = "" ∨ www = "www.")
    (hc : (isWordChar c || c = '/') = true) :
    matchVimeo (scheme.data ++ (www.data ++ ("vimeo.com/".data ++ c :: tl))) = true := by
  rcases hs with rfl | rfl | rfl <;> rcases hw with rfl | rfl <;> exact hc

/-! ### Claim C10: the validator is a prefix match -/

/-- The strip keeps the concrete prefix `https://vimeo.com/123` intact:
its first character is not whitespace (left strip is the identity) and
its last character `3` is not whitespace (the right strip cannot reach
past it). -/
theorem pyStrip_left_concrete (ys : List Char) :
    ∃ t, pyStrip ("https://vimeo.com/123".data ++ ys) =
      "https://vimeo.com/123".data ++ t := by
  have h1 : List.dropWhile pyIsSpace ("https://vimeo.com/123".data ++ ys) =
      "https://vimeo.com/123".data ++ ys := by
    rw [show "https://vimeo.com/123".data ++ ys =
      'h' :: ("ttps://vimeo.com/123".data ++ ys) from rfl]
    simp [List.dropWhile_cons, show pyIsSpace 'h' = false from rfl]
  have hrev : ("https://vimeo.com/123".data).reverse =
      '3' :: ("https://vimeo.com/12".data).reverse := by decide
  obtain ⟨t, ht⟩ := dropWhile_append_stops pyIsSpace ys.reverse '3'
    (("https://vimeo.com/12".data).reverse) (by decide)
  refine ⟨t.reverse, ?_⟩
  unfold pyStrip
  rw [h1, List.reverse_append, hrev, ht, List.reverse_append]
  rw [show ('3' :: ("https://vimeo.com/12".data).reverse).reverse =
    "https://vimeo.com/123".data from by decide]

/-- C10: the validator is a prefix match — every string whose trimmed
value begins with a match of the pattern is accepted, whatever
characters follow (in particular any string extending
`https://vimeo.com/123`) — while `https://vimeo.com` and
`https://vimeo.com/` are rejected because at least one word-or-slash
character must follow `vimeo.com/`. -/
theorem is_valid_vimeo_url_prefix_match :
    (∀ url : String, VimeoPattern url → is_valid_vimeo_url url = true) ∧
    (∀ suffix : String, is_valid_vimeo_url ("https://vimeo.com/123" ++ suffix) = true) ∧
    is_valid_vimeo_url "https://vimeo.com" = false ∧
    is_valid_vimeo_url "https://vimeo.com/" = false := by
  refine ⟨?_, ?_, by decide, by decide⟩
  · intro url hp
    obtain ⟨scheme, www, c, tl, hs, hw, heq, hc⟩ := hp
    unfold is_valid_vimeo_url
    rw [if_neg ?empty1]
    case empty1 =>
      intro h0
      rw [h0, show pyStrip ("" : String).data = ([] : List Char) from rfl] at heq
      rcases List.append_eq_nil.mp heq.symm with ⟨-, h2⟩
      rcases List.append_eq_nil.mp h2 with ⟨-, h3⟩
      rcases List.append_eq_nil.mp h3 with ⟨-, h4⟩
      exact List.cons_ne_nil _ _ h4
    rw [heq]
    exact matchVimeo_complete scheme www c tl hs hw hc
  · intro suffix
    unfold is_valid_vimeo_url
    rw [if_neg ?empty2]
    case empty2 =>
      intro h0
      have h0' : "https://vimeo.com/123".data ++ suffix.data = [] := by
        rw [← String.data_append]
        rw [h0]
      exact absurd (List.append_eq_nil.mp h0').1 (by decide)
    rw [String.data_append]
    obtain ⟨t, ht⟩ := pyStrip_left_concrete suffix.data
    rw [ht]
    rw [show "https://vimeo.com/123".data =
      "https://vimeo.com/".data ++ "123".data from rfl, List.append_assoc]
    exact matchVimeo_standard ("123".data ++ t) '1' ("23".data ++ t) rfl (by decide)

/-- Witness for C10: the theorem applied to a URL that uses the other
scheme and the optional `www.` — its trimmed value begins with a match
of the pattern, so it is accepted. -/
theorem is_valid_vimeo_url_prefix_match_witness :
    is_valid_vimeo_url "http://www.vimeo.com/abc" = true :=
  is_valid_vimeo_url_prefix_match.1 "http://www.vimeo.com/abc"
    ⟨"http://", "www.", 'a', ['b', 'c'], Or.inr (Or.inl rfl), Or.inr rfl,
      by decide, by decide⟩
